import Mathlib

/-!
Verification of the MovieBox range-aware streaming/download proxy.

The repository contains three parallel implementations of the same subsystem:
an Express server using node `fetch` (`src/index.js`, first document), a
Cloudflare Worker (`src/index.js`, second document), and an Express server
using axios with a cookie jar (`src/unnamed/part_000`).

This file shallowly embeds the credential cache, the range negotiation, and
the stream/download handlers of all three variants.  JavaScript numbers that
can be `NaN` are modelled as `Option Int` (with `none` for `NaN`), and the
JavaScript comparison operators on possibly-`NaN` values are modelled by the
`js*` functions below (every comparison against `NaN` is false).  All string
manipulation is performed on `List Char` with structural recursion so that
concrete instances evaluate inside the kernel.
-/

/-! ## JavaScript primitives -/

/-- JS comparison `a < b`; false when either side is `NaN`. -/
def jsLT : Option Int → Option Int → Bool
  | some a, some b => decide (a < b)
  | _, _ => false

/-- JS comparison `a > b`; false when either side is `NaN`. -/
def jsGT : Option Int → Option Int → Bool
  | some a, some b => decide (a > b)
  | _, _ => false

/-- JS comparison `a >= b`; false when either side is `NaN`. -/
def jsGE : Option Int → Option Int → Bool
  | some a, some b => decide (a ≥ b)
  | _, _ => false

/-- JS `isNaN`. -/
def jsIsNaN (o : Option Int) : Bool := o.isNone

/-- JS subtraction; `NaN` propagates. -/
def jsSub : Option Int → Option Int → Option Int
  | some a, some b => some (a - b)
  | _, _ => none

/-- JS addition; `NaN` propagates. -/
def jsAdd : Option Int → Option Int → Option Int
  | some a, some b => some (a + b)
  | _, _ => none

/-- How a JS number renders in a template literal (`NaN` prints as "NaN"). -/
def jsNumStr : Option Int → String
  | none => "NaN"
  | some n => toString n

/-- JS truthiness of a nullable string: `null` and `""` are falsy. -/
def jsTruthyS : Option String → Bool
  | none => false
  | some s => decide (s ≠ "")

/-- JS `a || d` for a nullable string `a` with string default `d`. -/
def jsOrStr (o : Option String) (d : String) : String :=
  match o with
  | none => d
  | some s => if s = "" then d else s

/-- JS `String.prototype.startsWith`. -/
def jsStartsWith (s pat : String) : Bool :=
  List.isPrefixOf pat.toList s.toList

/-- JS `String.prototype.endsWith`. -/
def jsEndsWith (s pat : String) : Bool :=
  List.isSuffixOf pat.toList s.toList

/-- The digits at the head of a character list. -/
def leadingDigits (cs : List Char) : List Char := cs.takeWhile Char.isDigit

/-- Decimal value of a digit list. -/
def digitsToNat (cs : List Char) : Nat :=
  cs.foldl (fun a c => a * 10 + (c.toNat - 48)) 0

/-- Value of the maximal digit run at the head; `none` when there is none. -/
def digitsVal (cs : List Char) : Option Nat :=
  match leadingDigits cs with
  | [] => none
  | ds => some (digitsToNat ds)

/-- JS `parseInt(s, 10)` on a character list: skip leading whitespace, accept
an optional sign, read the maximal digit run, ignore the rest; `NaN` (`none`)
when no digits were read. -/
def jsParseIntL (cs : List Char) : Option Int :=
  match cs.dropWhile Char.isWhitespace with
  | '-' :: rest => (digitsVal rest).map (fun n => -(n : Int))
  | '+' :: rest => (digitsVal rest).map (fun n => (n : Int))
  | rest => (digitsVal rest).map (fun n => (n : Int))

/-- JS `parseInt(s, 10)` on a string. -/
def jsParseInt (s : String) : Option Int := jsParseIntL s.toList

/-- Split a character list on a separator character, JS `split` semantics:
`splitOnChar ';' "a;b"` is `["a", "b"]`, and separators at the ends produce
empty groups. -/
def splitOnChar (sep : Char) : List Char → List (List Char)
  | [] => [[]]
  | c :: cs =>
    if c = sep then [] :: splitOnChar sep cs
    else
      match splitOnChar sep cs with
      | [] => [[c]]
      | g :: gs => (c :: g) :: gs

/-- Remove the first occurrence of `pat` from a list (JS
`String.prototype.replace` with a non-global regex and empty replacement). -/
def removeFirst (pat : List Char) : List Char → List Char
  | [] => []
  | c :: cs =>
    if List.isPrefixOf pat (c :: cs) then List.drop pat.length (c :: cs)
    else c :: removeFirst pat cs

/-- Trim ASCII whitespace from both ends of a character list (JS `trim`). -/
def trimWs (cs : List Char) : List Char :=
  ((cs.dropWhile Char.isWhitespace).reverse.dropWhile Char.isWhitespace).reverse

/-- Replace every maximal run of characters satisfying `p` by the single
character `rep` (JS `replace(/p+/g, rep)`); `inRun` records whether the
previous character was inside a run. -/
def collapseRunsAux (p : Char → Bool) (rep : Char) (inRun : Bool) : List Char → List Char
  | [] => []
  | c :: cs =>
    if p c then
      if inRun then collapseRunsAux p rep true cs
      else rep :: collapseRunsAux p rep true cs
    else c :: collapseRunsAux p rep false cs

/-- Replace every maximal run of characters satisfying `p` by `rep`. -/
def collapseRuns (p : Char → Bool) (rep : Char) (cs : List Char) : List Char :=
  collapseRunsAux p rep false cs

/-- Join strings with a separator (JS `Array.prototype.join`). -/
def joinWith (sep : String) : List String → String
  | [] => ""
  | [x] => x
  | x :: xs => x ++ sep ++ joinWith sep xs

/-! ## Range negotiation

Embeds the range-parsing block shared verbatim by the Express stream handler
(`src/index.js:312-317`), the Worker `handleStream`/`handleDownload`
(`src/index.js:841-849`, 972-982), and the axios stream handler
(`src/unnamed/part_000:731-741`):

    const parts = range.replace(/bytes=/, '').split('-');
    let start = parseInt(parts[0], 10);
    let end = parts[1] ? parseInt(parts[1], 10) : fileSize - 1;
    if (isNaN(start) && !isNaN(end)) { start = fileSize - end; end = fileSize - 1; }
-/

/-- The literal `bytes=` pattern of the `replace(/bytes=/, '')` call. -/
def bytesEqToken : List Char := ['b', 'y', 't', 'e', 's', '=']

/-- Post-substitution `(start, end)` pair computed from a `Range` header
value and the probed total length; `none` components are JS `NaN`. -/
def negotiatedL (range : List Char) (fileSize : Int) : Option Int × Option Int :=
  let parts := splitOnChar '-' (removeFirst bytesEqToken range)
  let sv := jsParseIntL (parts.headD [])
  let ev :=
    match parts.drop 1 with
    | [] => some (fileSize - 1)
    | p :: _ => if p.isEmpty then some (fileSize - 1) else jsParseIntL p
  match sv, ev with
  | none, some e => (some (fileSize - e), some (fileSize - 1))
  | s, e => (s, e)

/-- `negotiatedL` on a `String` header value. -/
def negotiated (range : String) (fileSize : Int) : Option Int × Option Int :=
  negotiatedL range.toList fileSize

/-- The Worker/axios range validation
(`isNaN(start) || isNaN(end) || start < 0 || end >= fileSize || start > end`,
`src/index.js:851`, `src/index.js:985`, `src/unnamed/part_000:744`). -/
def workerRangeBad (s e : Option Int) (fileSize : Int) : Bool :=
  jsIsNaN s || jsIsNaN e || jsLT s (some 0) || jsGE e (some fileSize) || jsGT s e

/-- The Express stream validation (`start >= fileSize || start > end`,
`src/index.js:318`). -/
def expressRangeBad (s e : Option Int) (fileSize : Int) : Bool :=
  jsGE s (some fileSize) || jsGT s e

/-- The `Content-Range` value `bytes <start>-<end>/<fileSize>`. -/
def contentRangeStr (s e : Option Int) (fileSize : Int) : String :=
  "bytes " ++ jsNumStr s ++ "-" ++ jsNumStr e ++ "/" ++ toString fileSize

/-! ## Response model

Projection of an HTTP response onto the status and the headers the
specification talks about.  Headers the handlers set that no claim mentions
(CORS, `Cache-Control`) are not modelled. -/

structure WResponse where
  status : Nat
  contentType : Option String
  contentLength : Option String
  contentRange : Option String
  acceptRanges : Bool
  contentDisposition : Option String
deriving Repr, DecidableEq

/-- Parse of the probed `content-length` header
(`parseInt(headResponse.headers.get('content-length'))`). -/
def parsedContentLength (headCL : Option String) : Option Int :=
  match headCL with
  | some s => jsParseInt s
  | none => none

/-! ## URL allow-lists -/

/-- The Express stream allow-list (`src/index.js:291`): the URL must start
with one of three fixed CDN origins. -/
def expressStreamUrlOk (u : String) : Bool :=
  jsStartsWith u "https://bcdnxw.hakunaymatata.com/" ||
  jsStartsWith u "https://valiw.hakunaymatata.com/" ||
  jsStartsWith u "https://bcdnw.hakunaymatata.com/"

/-- The Worker/axios allow-list (`src/index.js:800`, `src/index.js:918`,
`src/unnamed/part_000:668`, `src/unnamed/part_000:844`): two fixed CDN
origins. -/
def cdnAllowBV (u : String) : Bool :=
  jsStartsWith u "https://bcdnw.hakunaymatata.com/" ||
  jsStartsWith u "https://valiw.hakunaymatata.com/"

/-- A URL beginning with any CDN origin some variant allows (the union of the
fixed allowed origins across the repository). -/
def anyAllowedCdn (u : String) : Bool :=
  expressStreamUrlOk u || cdnAllowBV u

/-! ## Stream handlers -/

/-- The Worker 416 response (`src/index.js:852-863`): JSON body with
`Content-Range: bytes */<fileSize>`. -/
def worker416 (fileSize : Int) : WResponse :=
  ⟨416, some "application/json", none, some ("bytes */" ++ toString fileSize), false, none⟩

/-- The Worker 206 response (`src/index.js:876-886`) for the window
`(s, e)`: `Content-Length` is `(end - start) + 1` and `Content-Range` is
`bytes <start>-<end>/<fileSize>`. -/
def worker206 (s e : Option Int) (fileSize : Int) (ct : String) : WResponse :=
  ⟨206, some ct, some (jsNumStr (jsAdd (jsSub e s) (some 1))),
    some (contentRangeStr s e fileSize), true, none⟩

/-- The Express stream 416 response
(`res.status(416).header('Content-Range', ...)`, `src/index.js:318`). -/
def express416 (fileSize : Int) : WResponse :=
  ⟨416, none, none, some ("bytes */" ++ toString fileSize), false, none⟩

/-- The Express stream 206 response (`src/index.js:320-328`). -/
def express206 (s e : Option Int) (fileSize : Int) (ct : String) : WResponse :=
  ⟨206, some ct, some (jsNumStr (jsAdd (jsSub e s) (some 1))),
    some (contentRangeStr s e fileSize), true, none⟩

/-- Worker ranged branch, `src/index.js:841-886`: validate the parsed range
and answer 416 with `Content-Range: bytes */<fileSize>` or 206 with the
framing headers of the window.  The ranged branch of the axios stream handler
(`src/unnamed/part_000:731-781`) is character-for-character the same logic
and is embedded by this same definition. -/
def workerRangedResponse (range : String) (fileSize : Int) (ct : String) : WResponse :=
  let se := negotiated range fileSize
  if workerRangeBad se.1 se.2 fileSize then worker416 fileSize
  else worker206 se.1 se.2 fileSize ct

/-- Express stream ranged branch, `src/index.js:312-340`. -/
def expressRangedResponse (range : String) (fileSize : Int) (ct : String) : WResponse :=
  let se := negotiated range fileSize
  if expressRangeBad se.1 se.2 fileSize then express416 fileSize
  else express206 se.1 se.2 fileSize ct

/-- Full-file stream response (no `Range` header), shared shape of
`src/index.js:342-357`, `src/index.js:888-907` and
`src/unnamed/part_000:783-809`: status 200, `Content-Length` = total size,
`Accept-Ranges: bytes`. -/
def fullStreamResponse (fileSize : Int) (ct : String) : WResponse :=
  ⟨200, some ct, some (toString fileSize), none, true, none⟩

/-- Worker `handleStream`, `src/index.js:796-908`, as a function of the
query `url`, the client `Range` header, and the HEAD probe
headers `content-length` / `content-type`. -/
def handleStreamWorker (streamUrl range headCL headCT : Option String) : WResponse :=
  if !jsTruthyS streamUrl || !cdnAllowBV (streamUrl.getD "") then
    ⟨400, some "application/json", none, none, false, none⟩
  else
    let fileSize := parsedContentLength headCL
    let ct := jsOrStr headCT "video/mp4"
    if fileSize.isNone || fileSize = some 0 then
      ⟨500, some "application/json", none, none, false, none⟩
    else
      let N := fileSize.getD 0
      match range with
      | some r => if r ≠ "" then workerRangedResponse r N ct else fullStreamResponse N ct
      | none => fullStreamResponse N ct

/-- Express `/api/stream` handler, `src/index.js:288-363`. -/
def expressStreamHandler (streamUrl range headCL headCT : Option String) : WResponse :=
  if !jsTruthyS streamUrl || !expressStreamUrlOk (streamUrl.getD "") then
    ⟨400, none, none, none, false, none⟩
  else
    let fileSize := parsedContentLength headCL
    let ct := jsOrStr headCT "video/mp4"
    if fileSize.isNone || fileSize = some 0 then
      ⟨500, none, none, none, false, none⟩
    else
      let N := fileSize.getD 0
      match range with
      | some r => if r ≠ "" then expressRangedResponse r N ct else fullStreamResponse N ct
      | none => fullStreamResponse N ct

/-- axios `/api/stream` handler, `src/unnamed/part_000:663-823`.  The probe
phase (HEAD with fallback to a `bytes=0-0` GET, lines 680-729) is abstracted
by the `fileSize` argument: the value of the variable of that name after the
probe ran; the size check and range logic below it are embedded directly. -/
def axiosStreamHandler (streamUrl range : Option String) (fileSize : Option Int)
    (ct : String) : WResponse :=
  if !jsTruthyS streamUrl || !cdnAllowBV (streamUrl.getD "") then
    ⟨400, none, none, none, false, none⟩
  else
    if fileSize.isNone || fileSize = some 0 then
      ⟨500, none, none, none, false, none⟩
    else
      let N := fileSize.getD 0
      match range with
      | some r => if r ≠ "" then workerRangedResponse r N ct else fullStreamResponse N ct
      | none => fullStreamResponse N ct

/-! ## Download filenames -/

/-- Characters removed by the first regex of `sanitizeFilename`. -/
def invalidFilenameChar (c : Char) : Bool :=
  c = '<' || c = '>' || c = ':' || c = '"' || c = '/' || c = '\\' ||
  c = '|' || c = '?' || c = '*'

/-- `sanitizeFilename`, `src/index.js:64-70` (identical at
`src/index.js:575-581` and `src/unnamed/part_000:826-833`): strip
filesystem-hostile characters, collapse whitespace runs to `_`, collapse
underscore runs, trim. -/
def sanitizeFilename (s : String) : String :=
  let cs := s.toList.filter (fun c => !invalidFilenameChar c)
  let cs := collapseRuns Char.isWhitespace '_' cs
  let cs := collapseRuns (fun c => c = '_') '_' cs
  String.mk (trimWs cs)

/-- JS `String(x).padStart(2, '0')`. -/
def padStart2 (s : String) : String :=
  if s.toList.length ≥ 2 then s
  else String.mk (List.replicate (2 - s.toList.length) '0') ++ s

/-- Filename assembly of the Worker and axios download handlers
(`src/index.js:931-941`, `src/unnamed/part_000:852-865`): sanitized title,
optional `_SxxEyy`, optional `_quality`, then `.mp4` appended
unconditionally. -/
def downloadFilenameW (title season episode quality : Option String) : String :=
  let t := jsOrStr title "video"
  let q := jsOrStr quality ""
  let f := sanitizeFilename t
  let f := if jsTruthyS season && jsTruthyS episode then
             f ++ "_S" ++ padStart2 (season.getD "") ++ "E" ++ padStart2 (episode.getD "")
           else f
  let f := if q ≠ "" then f ++ "_" ++ q else f
  f ++ ".mp4"

/-- Filename assembly of the Express download handler
(`src/index.js:386-395`): as `downloadFilenameW` but `.mp4` is appended only
when the name does not already end with it. -/
def downloadFilenameE (title season episode quality : Option String) : String :=
  let t := jsOrStr title "video"
  let q := jsOrStr quality ""
  let f := sanitizeFilename t
  let f := if jsTruthyS season && jsTruthyS episode then
             f ++ "_S" ++ padStart2 (season.getD "") ++ "E" ++ padStart2 (episode.getD "")
           else f
  let f := if q ≠ "" then f ++ "_" ++ q else f
  if jsEndsWith f ".mp4" then f else f ++ ".mp4"

/-! ## Download handlers -/

/-- Worker download ranged branch, `src/index.js:972-1021`: the validation is
the one of `handleStream`, and on success `Content-Disposition: attachment`
is set next to the framing headers. -/
def workerDownloadRanged (range : String) (fileSize : Int) (ct fname : String) : WResponse :=
  let se := negotiated range fileSize
  if workerRangeBad se.1 se.2 fileSize then worker416 fileSize
  else
    ⟨206, some ct, some (jsNumStr (jsAdd (jsSub se.2 se.1) (some 1))),
      some (contentRangeStr se.1 se.2 fileSize), true,
      some ("attachment; filename=\"" ++ fname ++ "\"")⟩

/-- Worker download full-file branch, `src/index.js:1023-1042` (a `Response`
with no explicit status defaults to 200). -/
def workerDownloadFull (fileSize : Int) (ct fname : String) : WResponse :=
  ⟨200, some ct, some (toString fileSize), none, true,
    some ("attachment; filename=\"" ++ fname ++ "\"")⟩

/-- Worker `handleDownload`, `src/index.js:910-1043`. -/
def handleDownloadWorker (downloadUrl title season episode quality range headCL headCT :
    Option String) : WResponse :=
  if !jsTruthyS downloadUrl || !cdnAllowBV (downloadUrl.getD "") then
    ⟨400, some "application/json", none, none, false, none⟩
  else
    let fname := downloadFilenameW title season episode quality
    let fileSize := parsedContentLength headCL
    let ct := jsOrStr headCT "video/mp4"
    if fileSize.isNone || fileSize = some 0 then
      ⟨500, some "application/json", none, none, false, none⟩
    else
      let N := fileSize.getD 0
      match range with
      | some r => if r ≠ "" then workerDownloadRanged r N ct fname
                  else workerDownloadFull N ct fname
      | none => workerDownloadFull N ct fname

/-- Express `/api/download` handler, `src/index.js:366-423`.  Its only guard
is `if (!downloadUrl) return res.status(400)...`; there is no allow-list
check and the client `Range` header is never read (the `_range` argument is
unused, mirroring the source).  The probed `content-length` is forwarded as
a raw string, and the status is the Express default 200. -/
def expressDownloadHandler (downloadUrl title season episode quality _range headCL headCT :
    Option String) : WResponse :=
  if !jsTruthyS downloadUrl then
    ⟨400, none, none, none, false, none⟩
  else
    let fname := downloadFilenameE title season episode quality
    let ct := jsOrStr headCT "video/mp4"
    ⟨200, some ct, if jsTruthyS headCL then headCL else none, none, false,
      some ("attachment; filename=\"" ++ fname ++ "\"")⟩

/-- Whether the Express download handler reaches its upstream HEAD fetch
(`src/index.js:398`): exactly when the `!downloadUrl` guard was not taken. -/
def expressDownloadProbes (downloadUrl : Option String) : Bool :=
  jsTruthyS downloadUrl

/-- axios `/api/download` handler, `src/unnamed/part_000:836-919`: allow-list
guard, filename assembly, a single full GET whose `content-length` /
`content-type` are forwarded (`upCL`, `upCT`), `Content-Disposition:
attachment`, default status 200.  The handler never reads the client `Range`
header (`_range` is unused, mirroring the source). -/
def axiosDownloadHandler (downloadUrl title season episode quality _range upCL upCT :
    Option String) : WResponse :=
  if !jsTruthyS downloadUrl || !cdnAllowBV (downloadUrl.getD "") then
    ⟨400, none, none, none, false, none⟩
  else
    let fname := downloadFilenameW title season episode quality
    ⟨200, upCT, upCL, none, false,
      some ("attachment; filename=\"" ++ fname ++ "\"")⟩

/-! ## Credential cache

Embeds `getCookies` of the Express variant (`src/index.js:72-108`); the
Worker `getCookies` (`src/index.js:515-557`) is the same logic and is
embedded by these same definitions.  The module-level mutable pair
`cookieCache` / `cookieCacheTime` is made an explicit state, `Date.now()` an
explicit argument, and the bootstrap `fetch` an explicit argument describing
its outcome (its `Set-Cookie` headers, or a thrown network error). -/

def COOKIE_CACHE_DURATION : Int := 3600000

structure CookieState where
  cookieCache : Option String
  cookieCacheTime : Int
deriving Repr, DecidableEq

/-- Outcome of the bootstrap `fetch` to the `get-latest-app-pkgs` endpoint:
a response carrying the listed `Set-Cookie` headers, or a thrown error. -/
inductive BootstrapResult where
  | ok (setCookieHeaders : List String)
  | err
deriving Repr, DecidableEq

/-- `cookie.split(';')[0].trim()` — the stored pair for one `Set-Cookie`
header (`src/index.js:94-96`). -/
def cookieNameValue (h : String) : String :=
  String.mk (trimWs ((splitOnChar ';' h.toList).headD []))

/-- The credential string built from the `Set-Cookie` headers
(`src/index.js:94-97`): the per-header pairs joined with `"; "`. -/
def cookiesOf (hs : List String) : String :=
  joinWith "; " (hs.map cookieNameValue)

/-- Result of one `getCookies` call: the new cache state, the returned value,
and how many bootstrap network calls were made. -/
structure GetCookiesOutcome where
  state : CookieState
  ret : Option String
  bootstrapCalls : Nat
deriving Repr, DecidableEq

/-- The slow path of `getCookies` (`src/index.js:78-107`): one bootstrap
call; on success with `Set-Cookie` headers present, store the joined pairs
with the current time; with none present, leave the cache untouched and
return the old cached value; on a thrown error, log and `return null`. -/
def refreshCookies (st : CookieState) (now : Int) (b : BootstrapResult) : GetCookiesOutcome :=
  match b with
  | .err => ⟨st, none, 1⟩
  | .ok hs =>
    if hs.length > 0 then
      let cookies := cookiesOf hs
      ⟨⟨some cookies, now⟩, some cookies, 1⟩
    else ⟨st, st.cookieCache, 1⟩

/-- `getCookies` (`src/index.js:72-108`): return the cached credential with
no network call while it is truthy and younger than the TTL, otherwise run
the slow path. -/
def getCookies (st : CookieState) (now : Int) (b : BootstrapResult) : GetCookiesOutcome :=
  if jsTruthyS st.cookieCache = true ∧ now - st.cookieCacheTime < COOKIE_CACHE_DURATION then
    ⟨st, st.cookieCache, 0⟩
  else refreshCookies st now b

/-- The credential string as §4.1 of the specification words it: for each
`Set-Cookie` header take only the `name=value` part preceding the first
`;` and join all pairs with `"; "`.  Stated with `takeWhile` so that it can
be compared against the `split(';')[0]` computation of the source. -/
def specCredentialString (hs : List String) : String :=
  joinWith "; " (hs.map (fun h => String.mk (trimWs (h.toList.takeWhile (fun c => c != ';')))))

/-! ## axios-variant session bootstrap

Embeds `ensureCookiesAreAssigned` (`src/unnamed/part_000:92-115`): the cookie
jar is managed by axios, and the only explicit state is the boolean
`cookiesInitialized`, which has no expiry.  On a bootstrap failure the
function rethrows (`throw error`, line 111), modelled as `Except.error`.
The second component counts bootstrap network calls. -/
def ensureCookiesAreAssigned (cookiesInitialized : Bool) (b : BootstrapResult) :
    Except Unit Bool × Nat :=
  if cookiesInitialized then (Except.ok true, 0)
  else
    match b with
    | .ok _ => (Except.ok true, 1)
    | .err => (Except.error (), 1)

/-- Status an axios-variant API route answers with, as a function of the
session state and the bootstrap outcome: `makeApiRequest`
(`src/unnamed/part_000:117-134`) awaits `ensureCookiesAreAssigned`, whose
rethrown failure is caught by the `catch` of the route handler, which responds
500 (e.g. `src/unnamed/part_000:652-659`); otherwise the request proceeds
(a successful upstream exchange answers 200). -/
def axiosApiHandlerStatus (cookiesInitialized : Bool) (b : BootstrapResult) : Nat :=
  match (ensureCookiesAreAssigned cookiesInitialized b).1 with
  | .error _ => 500
  | .ok _ => 200

/-! ## Supporting lemmas -/

/-- Splitting never yields an empty group list. -/
theorem splitOnChar_ne_nil (sep : Char) (cs : List Char) : splitOnChar sep cs ≠ [] := by
  induction cs with
  | nil => simp [splitOnChar]
  | cons c cs ih =>
    simp only [splitOnChar]
    split
    · simp
    · split
      · simp
      · simp

/-- The first group of a split is the maximal separator-free run at the
head, connecting the `split(';')[0]` of the source with the wording of the
specification: the part preceding the first `;`. -/
theorem splitOnChar_headD (sep : Char) (cs : List Char) :
    (splitOnChar sep cs).headD [] = cs.takeWhile (fun c => c != sep) := by
  induction cs with
  | nil => simp [splitOnChar]
  | cons c cs ih =>
    by_cases h : c = sep
    · subst h
      simp [splitOnChar, List.takeWhile_cons]
    · simp only [splitOnChar, if_neg h]
      cases hs : splitOnChar sep cs with
      | nil => exact absurd hs (splitOnChar_ne_nil sep cs)
      | cons g gs =>
        rw [hs] at ih
        simp only [List.headD_cons] at ih ⊢
        rw [List.takeWhile_cons]
        have hb : (c != sep) = true := by simp [h]
        rw [hb]
        simp [ih]

/-- A separator-free list splits into a single group. -/
theorem splitOnChar_eq_single (sep : Char) (cs : List Char)
    (h : ∀ c ∈ cs, c ≠ sep) : splitOnChar sep cs = [cs] := by
  induction cs with
  | nil => rfl
  | cons c cs ih =>
    have hc : c ≠ sep := h c (List.mem_cons_self c cs)
    have hrest := ih (fun x hx => h x (List.mem_cons_of_mem c hx))
    simp [splitOnChar, hc, hrest]

/-- On two real numbers the Worker validation is the disjunction of the
three failure conditions. -/
theorem workerRangeBad_some (a b N : Int) :
    workerRangeBad (some a) (some b) N =
      (decide (a < 0) || decide (N ≤ b) || decide (b < a)) := by
  simp [workerRangeBad, jsIsNaN, jsLT, jsGE, jsGT]

/-- On two real numbers the Express validation checks only the two
conditions of `src/index.js:318`. -/
theorem expressRangeBad_some (a b N : Int) :
    expressRangeBad (some a) (some b) N = (decide (N ≤ a) || decide (b < a)) := by
  simp [expressRangeBad, jsGE, jsGT]

/-- A suffix header `bytes=-K` (with `K` written by the separator-free
digit list `ks`) negotiates to the window `(N - K, N - 1)`. -/
theorem negotiatedL_suffix (ks : List Char) (K N : Int)
    (h1 : jsParseIntL ks = some K) (h2 : ks ≠ [])
    (h3 : ∀ c ∈ ks, c ≠ '-') :
    negotiatedL ('b' :: 'y' :: 't' :: 'e' :: 's' :: '=' :: '-' :: ks) N =
      (some (N - K), some (N - 1)) := by
  have hrm : removeFirst bytesEqToken ('b' :: 'y' :: 't' :: 'e' :: 's' :: '=' :: '-' :: ks) =
      '-' :: ks := rfl
  have hsplit : splitOnChar '-' ks = [ks] := splitOnChar_eq_single _ _ h3
  have hparts : splitOnChar '-' ('-' :: ks) = [[], ks] := by
    simp [splitOnChar, hsplit]
  have hne : ks.isEmpty = false := by
    cases ks with
    | nil => exact absurd rfl h2
    | cons a as => rfl
  simp [negotiatedL, hrm, hparts, hne, h1]
  rfl

/-- A URL with a nonempty literal starting pattern is nonempty. -/
theorem ne_empty_of_startsWith (u pat : String) (c : Char) (cs : List Char)
    (hp : pat.toList = c :: cs) (h : jsStartsWith u pat = true) : u ≠ "" := by
  intro he
  subst he
  rw [jsStartsWith, hp] at h
  simp [List.isPrefixOf] at h

/-- A `valiw` URL passes the Worker/axios allow-list. -/
theorem cdnAllowBV_of_valiw (u : String)
    (h : jsStartsWith u "https://valiw.hakunaymatata.com/" = true) :
    cdnAllowBV u = true := by
  simp [cdnAllowBV, h]

/-- A `valiw` URL passes the Express stream allow-list. -/
theorem expressStreamUrlOk_of_valiw (u : String)
    (h : jsStartsWith u "https://valiw.hakunaymatata.com/" = true) :
    expressStreamUrlOk u = true := by
  simp [expressStreamUrlOk, h]

/-- A `valiw` URL is nonempty. -/
theorem ne_empty_of_valiw (u : String)
    (h : jsStartsWith u "https://valiw.hakunaymatata.com/" = true) : u ≠ "" :=
  ne_empty_of_startsWith u _ 'h' _ rfl h

/-- If a `getCookies` call returned a credential, the cache after the call
holds exactly that credential. -/
theorem getCookies_cache_of_ret (st : CookieState) (now : Int) (b : BootstrapResult)
    (c : String) (h : (getCookies st now b).ret = some c) :
    (getCookies st now b).state.cookieCache = some c := by
  by_cases hc : jsTruthyS st.cookieCache = true ∧
      now - st.cookieCacheTime < COOKIE_CACHE_DURATION
  · unfold getCookies at h ⊢
    rw [if_pos hc] at h ⊢
    exact h
  · unfold getCookies at h ⊢
    rw [if_neg hc] at h ⊢
    cases b with
    | err => simp [refreshCookies] at h
    | ok hs =>
      by_cases hl : hs.length > 0
      · simp only [refreshCookies, if_pos hl] at h ⊢
        exact h
      · simp only [refreshCookies, if_neg hl] at h ⊢
        exact h

/-- The per-header cookie computation of the source (`split(';')[0].trim()`)
equals the wording of the specification: the name=value part preceding the
first `;`, trimmed. -/
theorem cookieNameValue_eq_spec (h : String) :
    cookieNameValue h = String.mk (trimWs (h.toList.takeWhile (fun c => c != ';'))) := by
  rw [cookieNameValue, splitOnChar_headD]

/-- The credential string of the source equals the one described by §4.1 of the
specification. -/
theorem cookiesOf_eq_spec (hs : List String) : cookiesOf hs = specCredentialString hs := by
  have hfn : cookieNameValue =
      fun h => String.mk (trimWs (h.toList.takeWhile (fun c => c != ';'))) :=
    funext cookieNameValue_eq_spec
  rw [cookiesOf, specCredentialString, hfn]

/-! ## Claims -/

/-- Claim C1 (code bug): the claim says every stream or download request
whose target URL is not on the fixed CDN allow-list is answered 400 with no
upstream call, but the Express download handler (`src/index.js:366-423`)
checks only that a `url` parameter is present: for the disallowed target
`https://evil.example/payload.mp4` the allow-list rejects it, yet the Express
download handler reaches its upstream HEAD fetch and answers 200. -/
theorem c1_express_download_skips_allowlist :
    anyAllowedCdn "https://evil.example/payload.mp4" = false ∧
    expressDownloadProbes (some "https://evil.example/payload.mp4") = true ∧
    (expressDownloadHandler (some "https://evil.example/payload.mp4")
        none none none none none (some "1000") none).status = 200 := by
  exact ⟨by decide, by decide, by decide⟩

/-- Claim C2 counterexample: the claim requires 416 whenever `end ≥ N` or a
bound fails to parse, but the Express stream handler answers 206 to
`bytes=0-2000` against length 1000 (its validation never checks the upper
bound), and even the Worker answers 206 to `bytes=abc-500` (an unparseable
start together with a parseable end is reinterpreted as a suffix range). -/
theorem c2_counterexample :
    (negotiated "bytes=0-2000" 1000).2 = some 2000 ∧
    (expressStreamHandler (some "https://valiw.hakunaymatata.com/v.mp4")
        (some "bytes=0-2000") (some "1000") none).status = 206 ∧
    (handleStreamWorker (some "https://valiw.hakunaymatata.com/v.mp4")
        (some "bytes=abc-500") (some "1000") none).status = 206 := by
  exact ⟨by decide, by decide, by decide⟩

/-- Claim C2 (amended): in the Worker/axios validation, whenever the
post-substitution bounds have an unparseable component, or `start > end`, or
`end ≥ N`, the response is a 416 carrying `Content-Range: bytes */N`; the
Express stream variant answers 416 exactly when `start ≥ N` or `start > end`
holds of the post-substitution bounds (`NaN` comparisons being false). -/
theorem c2_amended (r : String) (N : Int) (ct : String) :
    ((negotiated r N).1 = none ∨ (negotiated r N).2 = none ∨
      (∃ sv ev, (negotiated r N).1 = some sv ∧ (negotiated r N).2 = some ev ∧
        (ev < sv ∨ N ≤ ev)) →
      workerRangedResponse r N ct =
        ⟨416, some "application/json", none, some ("bytes */" ++ toString N), false, none⟩) ∧
    (expressRangedResponse r N ct = express416 N ↔
      expressRangeBad (negotiated r N).1 (negotiated r N).2 N = true) := by
  constructor
  · intro h
    have hbad : workerRangeBad (negotiated r N).1 (negotiated r N).2 N = true := by
      rcases h with h | h | ⟨sv, ev, hs, he, hcmp⟩
      · simp [workerRangeBad, jsIsNaN, h]
      · simp [workerRangeBad, jsIsNaN, h]
      · rw [hs, he, workerRangeBad_some]
        rcases hcmp with h1 | h1 <;> simp <;> omega
    simp [workerRangedResponse, hbad, worker416]
  · constructor
    · intro h
      by_contra hbad
      rw [Bool.not_eq_true] at hbad
      rw [expressRangedResponse] at h
      simp only [hbad, if_false] at h
      have := congrArg WResponse.status h
      simp [express206, express416] at this
    · intro h
      simp [expressRangedResponse, h]

/-- Witness for the amended C2: `bytes=5-abc` against length 10 has an
unparseable end bound, and the Worker answers 416 with
`Content-Range: bytes */10`. -/
theorem c2_amended_witness :
    workerRangedResponse "bytes=5-abc" 10 "video/mp4" =
      ⟨416, some "application/json", none, some ("bytes */" ++ toString (10 : Int)),
        false, none⟩ ∧
    (expressRangedResponse "bytes=5-abc" 10 "video/mp4" = express416 10 ↔
      expressRangeBad (negotiated "bytes=5-abc" 10).1 (negotiated "bytes=5-abc" 10).2 10 =
        true) := by
  exact ⟨(c2_amended "bytes=5-abc" 10 "video/mp4").1 (Or.inr (Or.inl (by decide))),
         (c2_amended "bytes=5-abc" 10 "video/mp4").2⟩

/-- Claim C3 counterexample: the claim requires download endpoints to apply
the stream range semantics, but the axios and Express download handlers
never read the `Range` header: with a valid `Range: bytes=0-0` against an
allowed URL the axios handler serves the full body with status 200 and no
`Content-Range`, and the Express handler likewise answers 200. -/
theorem c3_counterexample :
    axiosDownloadHandler (some "https://valiw.hakunaymatata.com/v.mp4") (some "T")
        none none none (some "bytes=0-0") (some "1000") (some "video/mp4") =
      ⟨200, some "video/mp4", some "1000", none, false,
        some "attachment; filename=\"T.mp4\""⟩ ∧
    (expressDownloadHandler (some "https://valiw.hakunaymatata.com/v.mp4") (some "T")
        none none none (some "bytes=0-0") (some "1000") none).status = 200 := by
  exact ⟨by decide, by decide⟩

/-- Claim C3 (amended): only the Worker download handler applies the stream
range semantics — its ranged branch answers exactly as the stream handler
would (416 on the same inputs; on success the same 206 plus
`Content-Disposition: attachment`), and its full branch is the 200 of the stream
plus the attachment disposition.  The Express and axios download handlers
ignore the `Range` header and always serve the full body (status 200) with
`Content-Disposition: attachment`. -/
theorem c3_amended (r : String) (N : Int) (ct fname : String)
    (title season episode quality du range upCL upCT headCL headCT : Option String) :
    (workerRangeBad (negotiated r N).1 (negotiated r N).2 N = true →
      workerDownloadRanged r N ct fname = workerRangedResponse r N ct) ∧
    (workerRangeBad (negotiated r N).1 (negotiated r N).2 N = false →
      workerDownloadRanged r N ct fname =
        { workerRangedResponse r N ct with
            contentDisposition := some ("attachment; filename=\"" ++ fname ++ "\"") }) ∧
    (workerDownloadFull N ct fname =
      { fullStreamResponse N ct with
          contentDisposition := some ("attachment; filename=\"" ++ fname ++ "\"") }) ∧
    (jsTruthyS du = true →
      expressDownloadHandler du title season episode quality range headCL headCT =
        ⟨200, some (jsOrStr headCT "video/mp4"),
          if jsTruthyS headCL then headCL else none, none, false,
          some ("attachment; filename=\"" ++
            downloadFilenameE title season episode quality ++ "\"")⟩) ∧
    (jsTruthyS du = true → cdnAllowBV (du.getD "") = true →
      axiosDownloadHandler du title season episode quality range upCL upCT =
        ⟨200, upCT, upCL, none, false,
          some ("attachment; filename=\"" ++
            downloadFilenameW title season episode quality ++ "\"")⟩) := by
  refine ⟨?_, ?_, ?_, ?_, ?_⟩
  · intro h; simp [workerDownloadRanged, workerRangedResponse, h]
  · intro h; simp [workerDownloadRanged, workerRangedResponse, h, worker206]
  · simp [workerDownloadFull, fullStreamResponse]
  · intro h; simp [expressDownloadHandler, h]
  · intro h1 h2; simp [axiosDownloadHandler, h1, h2]

/-- Witness for the amended C3 at concrete inputs: a valid range gets the
stream 206 plus attachment, an invalid one the stream 416, and the Express
and axios handlers answer 200 with attachment while a `Range: bytes=0-0`
header is present. -/
theorem c3_amended_witness :
    workerDownloadRanged "bytes=0-0" 1000 "video/mp4" "f.mp4" =
      { workerRangedResponse "bytes=0-0" 1000 "video/mp4" with
          contentDisposition := some ("attachment; filename=\"" ++ "f.mp4" ++ "\"") } ∧
    workerDownloadRanged "bytes=5-2" 1000 "video/mp4" "f.mp4" =
      workerRangedResponse "bytes=5-2" 1000 "video/mp4" ∧
    expressDownloadHandler (some "https://valiw.hakunaymatata.com/v.mp4") (some "T")
        none none none (some "bytes=0-0") (some "1000") none =
      ⟨200, some (jsOrStr none "video/mp4"),
        if jsTruthyS (some "1000") then some "1000" else none, none, false,
        some ("attachment; filename=\"" ++ downloadFilenameE (some "T") none none none ++
          "\"")⟩ ∧
    axiosDownloadHandler (some "https://valiw.hakunaymatata.com/v.mp4") (some "T")
        none none none (some "bytes=0-0") (some "1000") none =
      ⟨200, none, some "1000", none, false,
        some ("attachment; filename=\"" ++ downloadFilenameW (some "T") none none none ++
          "\"")⟩ := by
  refine ⟨?_, ?_, ?_, ?_⟩
  · exact (c3_amended "bytes=0-0" 1000 "video/mp4" "f.mp4" none none none none
      (some "https://valiw.hakunaymatata.com/v.mp4") (some "bytes=0-0") none none
      (some "1000") none).2.1 (by decide)
  · exact (c3_amended "bytes=5-2" 1000 "video/mp4" "f.mp4" none none none none
      (some "https://valiw.hakunaymatata.com/v.mp4") (some "bytes=0-0") none none
      (some "1000") none).1 (by decide)
  · exact (c3_amended "bytes=0-0" 1000 "video/mp4" "f.mp4" (some "T") none none none
      (some "https://valiw.hakunaymatata.com/v.mp4") (some "bytes=0-0") none none
      (some "1000") none).2.2.2.1 (by decide)
  · exact (c3_amended "bytes=0-0" 1000 "video/mp4" "f.mp4" (some "T") none none none
      (some "https://valiw.hakunaymatata.com/v.mp4") (some "bytes=0-0") (some "1000")
      none (some "1000") none).2.2.2.2 (by decide) (by decide)

/-- Claim C4 counterexample: with an expired cached credential `a=b` and a
failing bootstrap call, `getCookies` returns `null` even though the cache
still holds `a=b` — not "whatever the cache last held" — and in the axios
variant the bootstrap failure is rethrown and surfaces to the client as a
request-level 500. -/
theorem c4_counterexample :
    (getCookies ⟨some "a=b", 0⟩ 3600000 BootstrapResult.err).state.cookieCache =
      some "a=b" ∧
    (getCookies ⟨some "a=b", 0⟩ 3600000 BootstrapResult.err).ret = none ∧
    axiosApiHandlerStatus false BootstrapResult.err = 500 := by
  exact ⟨by decide, by decide, by decide⟩

/-- Claim C4 (amended): in the Express/Worker variants a bootstrap failure
is not fatal and never surfaces as a request-level error — the slow path
catches it, leaves the cache state unchanged, and returns `null` (not the
previously held credential) — while in the axios variant
`ensureCookiesAreAssigned` rethrows the failure, which the route handler
maps to a 500 response. -/
theorem c4_amended :
    (∀ (st : CookieState) (now : Int),
      refreshCookies st now BootstrapResult.err = ⟨st, none, 1⟩) ∧
    (∀ (st : CookieState) (now : Int),
      (getCookies st now BootstrapResult.err).state = st) ∧
    axiosApiHandlerStatus false BootstrapResult.err = 500 := by
  refine ⟨fun st now => rfl, fun st now => ?_, rfl⟩
  unfold getCookies
  split
  · rfl
  · rfl

/-- Claim C5 counterexample: the axios variant has no TTL at all — once
`cookiesInitialized` is set, a later call (in particular one made just past
the one-hour mark) performs zero refresh attempts, not "exactly one", even
when a refresh would be needed (here the stub bootstrap would fail and the
call does not even notice). -/
theorem c5_counterexample :
    ensureCookiesAreAssigned true BootstrapResult.err = (Except.ok true, 0) := rfl

/-- Claim C5 (amended): in the Express/Worker `getCookies`, a second call
within the TTL of the credential held after a first call returns the
identical string, leaves the state untouched and makes no bootstrap call;
a call on a held credential at or past the TTL makes exactly one bootstrap
call; the axios variant, once initialized, never refreshes regardless of
elapsed time. -/
theorem c5_amended :
    (∀ (st0 : CookieState) (t1 t2 : Int) (b1 b2 : BootstrapResult) (c : String),
      (getCookies st0 t1 b1).ret = some c → c ≠ "" →
      t2 - (getCookies st0 t1 b1).state.cookieCacheTime < COOKIE_CACHE_DURATION →
      getCookies (getCookies st0 t1 b1).state t2 b2 =
        ⟨(getCookies st0 t1 b1).state, some c, 0⟩) ∧
    (∀ (st : CookieState) (t : Int) (b : BootstrapResult),
      jsTruthyS st.cookieCache = true →
      COOKIE_CACHE_DURATION ≤ t - st.cookieCacheTime →
      (getCookies st t b).bootstrapCalls = 1) ∧
    (∀ b, ensureCookiesAreAssigned true b = (Except.ok true, 0)) := by
  refine ⟨?_, ?_, fun b => rfl⟩
  · intro st0 t1 t2 b1 b2 c h1 h2 h3
    have hcache := getCookies_cache_of_ret st0 t1 b1 c h1
    obtain ⟨st1, hst1⟩ : ∃ s, (getCookies st0 t1 b1).state = s := ⟨_, rfl⟩
    rw [hst1] at hcache h3 ⊢
    have htr : jsTruthyS st1.cookieCache = true := by
      rw [hcache]; simp [jsTruthyS, h2]
    unfold getCookies
    rw [if_pos ⟨htr, h3⟩, hcache]
  · intro st t b htr httl
    unfold getCookies
    rw [if_neg ?_]
    · cases b with
      | err => rfl
      | ok hs =>
        simp only [refreshCookies]
        split <;> rfl
    · rintro ⟨-, hlt⟩
      omega

/-- Witness for the amended C5: a first call at time 0 acquires `sid=1`; a
second call at time 10 (within the TTL) returns the identical string with
zero bootstrap calls even though its stub bootstrap would fail; a call on a
held credential exactly at the TTL makes one bootstrap call; the
initialized axios variant makes none. -/
theorem c5_amended_witness :
    getCookies (getCookies ⟨none, 0⟩ 0 (BootstrapResult.ok ["sid=1; Path=/"])).state 10
        BootstrapResult.err =
      ⟨(getCookies ⟨none, 0⟩ 0 (BootstrapResult.ok ["sid=1; Path=/"])).state,
        some "sid=1", 0⟩ ∧
    (getCookies ⟨some "x=1", 0⟩ 3600000 BootstrapResult.err).bootstrapCalls = 1 ∧
    ensureCookiesAreAssigned true (BootstrapResult.ok []) = (Except.ok true, 0) := by
  refine ⟨?_, ?_, ?_⟩
  · exact c5_amended.1 ⟨none, 0⟩ 0 10 (BootstrapResult.ok ["sid=1; Path=/"])
      BootstrapResult.err "sid=1" (by decide) (by decide) (by decide)
  · exact c5_amended.2.1 ⟨some "x=1", 0⟩ 3600000 BootstrapResult.err (by decide) (by decide)
  · exact c5_amended.2.2 (BootstrapResult.ok [])

/-- Claim C6 counterexample: the claim says `bytes=-K` with `K ≥ N` is
answered 416 with no clamping, but for `K = N` every variant serves the
whole file as a 206 (window `(0, N-1)`), and for `K > N` the Express stream
variant serves a 206 whose `Content-Range` start is negative. -/
theorem c6_counterexample :
    negotiated "bytes=-5" 5 = (some 0, some 4) ∧
    (workerRangedResponse "bytes=-5" 5 "video/mp4").status = 206 ∧
    (expressRangedResponse "bytes=-7" 5 "video/mp4").status = 206 ∧
    (expressRangedResponse "bytes=-7" 5 "video/mp4").contentRange =
      some "bytes -2-4/5" := by
  exact ⟨by decide, by decide, by decide, by decide⟩

/-- Claim C6 (amended): for a suffix header `bytes=-K` against total length
`N` (with `K` written as a digit string): when `1 ≤ K < N` both validations
serve the window `(N-K, N-1)` as a 206; `bytes=-0` is answered 416 by both;
`K = N` is served as the full file (206 with window `(0, N-1)`) by both;
and when `K > N` the Worker answers 416 while the Express variant serves a
206 whose start `N - K` is negative — no variant clamps. -/
theorem c6_amended (ks : List Char) (K N : Int) (ct : String) (r : String)
    (hr : r = String.mk ('b' :: 'y' :: 't' :: 'e' :: 's' :: '=' :: '-' :: ks))
    (h1 : jsParseIntL ks = some K) (h2 : ks ≠ [])
    (h3 : ∀ c ∈ ks, c ≠ '-') :
    (1 ≤ K → K < N →
      workerRangedResponse r N ct = worker206 (some (N - K)) (some (N - 1)) N ct ∧
      expressRangedResponse r N ct = express206 (some (N - K)) (some (N - 1)) N ct) ∧
    (K = 0 →
      workerRangedResponse r N ct = worker416 N ∧
      expressRangedResponse r N ct = express416 N) ∧
    (K = N → 1 ≤ N →
      workerRangedResponse r N ct = worker206 (some 0) (some (N - 1)) N ct ∧
      expressRangedResponse r N ct = express206 (some 0) (some (N - 1)) N ct) ∧
    (N < K → 1 ≤ K →
      workerRangedResponse r N ct = worker416 N ∧
      expressRangedResponse r N ct = express206 (some (N - K)) (some (N - 1)) N ct ∧
      N - K < 0) := by
  subst hr
  have hneg : negotiated (String.mk ('b' :: 'y' :: 't' :: 'e' :: 's' :: '=' :: '-' :: ks)) N =
      (some (N - K), some (N - 1)) := negotiatedL_suffix ks K N h1 h2 h3
  refine ⟨?_, ?_, ?_, ?_⟩
  · intro hk1 hk2
    have hw : workerRangeBad (some (N - K)) (some (N - 1)) N = false := by
      rw [workerRangeBad_some]; simp; omega
    have he : expressRangeBad (some (N - K)) (some (N - 1)) N = false := by
      rw [expressRangeBad_some]; simp; omega
    exact ⟨by simp [workerRangedResponse, hneg, hw],
           by simp [expressRangedResponse, hneg, he]⟩
  · intro hk0
    have hw : workerRangeBad (some (N - K)) (some (N - 1)) N = true := by
      rw [workerRangeBad_some]; simp; omega
    have he : expressRangeBad (some (N - K)) (some (N - 1)) N = true := by
      rw [expressRangeBad_some]; simp; omega
    exact ⟨by simp [workerRangedResponse, hneg, hw],
           by simp [expressRangedResponse, hneg, he]⟩
  · intro hkN hN1
    have h0 : N - K = 0 := by omega
    have hw : workerRangeBad (some (N - K)) (some (N - 1)) N = false := by
      rw [workerRangeBad_some]; simp; omega
    have he : expressRangeBad (some (N - K)) (some (N - 1)) N = false := by
      rw [expressRangeBad_some]; simp; omega
    rw [h0] at hneg hw he
    exact ⟨by simp [workerRangedResponse, hneg, hw],
           by simp [expressRangedResponse, hneg, he]⟩
  · intro hNK hk1
    have hw : workerRangeBad (some (N - K)) (some (N - 1)) N = true := by
      rw [workerRangeBad_some]; simp; omega
    have he : expressRangeBad (some (N - K)) (some (N - 1)) N = false := by
      rw [expressRangeBad_some]; simp; omega
    exact ⟨by simp [workerRangedResponse, hneg, hw],
           by simp [expressRangedResponse, hneg, he], by omega⟩

/-- Witness for the amended C6: the header `bytes=-3` against length 5
serves the window `(2, 4)` in both variants. -/
theorem c6_amended_witness :
    workerRangedResponse (String.mk ('b' :: 'y' :: 't' :: 'e' :: 's' :: '=' :: '-' :: ['3']))
        5 "v" = worker206 (some (5 - 3)) (some (5 - 1)) 5 "v" ∧
    expressRangedResponse (String.mk ('b' :: 'y' :: 't' :: 'e' :: 's' :: '=' :: '-' :: ['3']))
        5 "v" = express206 (some (5 - 3)) (some (5 - 1)) 5 "v" := by
  exact (c6_amended ['3'] 3 5 "v" _ rfl (by decide) (by decide) (by decide)).1
    (by decide) (by decide)

/-- Claim C7 (confirmed): for every satisfiable serving window
`(start, end)` — integer post-substitution bounds passing the applicable
validation — the 206 response has `Content-Length` equal to
`end - start + 1` and `Content-Range` exactly `bytes start-end/N`, in both
the Worker/axios and the Express ranged branches; for the full-file response the
`Content-Length` likewise equals `end - start + 1` of the implicit window
`(0, N-1)`. -/
theorem c7_framing (r : String) (N sv ev : Int) (ct : String)
    (hne : negotiated r N = (some sv, some ev)) :
    (workerRangeBad (some sv) (some ev) N = false →
      workerRangedResponse r N ct = ⟨206, some ct, some (toString (ev - sv + 1)),
        some ("bytes " ++ toString sv ++ "-" ++ toString ev ++ "/" ++ toString N),
        true, none⟩) ∧
    (expressRangeBad (some sv) (some ev) N = false →
      expressRangedResponse r N ct = ⟨206, some ct, some (toString (ev - sv + 1)),
        some ("bytes " ++ toString sv ++ "-" ++ toString ev ++ "/" ++ toString N),
        true, none⟩) ∧
    (fullStreamResponse N ct).contentLength = some (toString ((N - 1) - 0 + 1)) := by
  refine ⟨?_, ?_, ?_⟩
  · intro h
    simp [workerRangedResponse, hne, h, worker206, jsAdd, jsSub, jsNumStr, contentRangeStr]
  · intro h
    simp [expressRangedResponse, hne, h, express206, jsAdd, jsSub, jsNumStr, contentRangeStr]
  · have hN : (N - 1) - 0 + 1 = N := by ring
    simp [fullStreamResponse, hN]

/-- Witness for C7: `bytes=200-299` against length 1000 yields a 206 with
`Content-Length: 100` and `Content-Range: bytes 200-299/1000` in both
variants. -/
theorem c7_framing_witness :
    workerRangedResponse "bytes=200-299" 1000 "video/mp4" =
      ⟨206, some "video/mp4", some (toString ((299 : Int) - 200 + 1)),
        some ("bytes " ++ toString (200 : Int) ++ "-" ++ toString (299 : Int) ++ "/" ++
          toString (1000 : Int)), true, none⟩ ∧
    expressRangedResponse "bytes=200-299" 1000 "video/mp4" =
      ⟨206, some "video/mp4", some (toString ((299 : Int) - 200 + 1)),
        some ("bytes " ++ toString (200 : Int) ++ "-" ++ toString (299 : Int) ++ "/" ++
          toString (1000 : Int)), true, none⟩ ∧
    (fullStreamResponse 1000 "video/mp4").contentLength =
      some (toString (((1000 : Int) - 1) - 0 + 1)) := by
  refine ⟨?_, ?_, ?_⟩
  · exact (c7_framing "bytes=200-299" 1000 200 299 "video/mp4" (by decide)).1 (by decide)
  · exact (c7_framing "bytes=200-299" 1000 200 299 "video/mp4" (by decide)).2.1 (by decide)
  · exact (c7_framing "bytes=200-299" 1000 200 299 "video/mp4" (by decide)).2.2

/-- Claim C8 (confirmed): a request with no `Range` header against an
allowed URL whose probe reports total length `N > 0` is answered by all
three variants with the full-file response: status 200,
`Content-Length: N`, `Accept-Ranges: bytes` (the served window is the full
file, bytes `0` through `N-1`). -/
theorem c8_full_request (u : String) (headCL headCT : Option String) (N : Int)
    (hu : jsStartsWith u "https://valiw.hakunaymatata.com/" = true)
    (hN : parsedContentLength headCL = some N) (hpos : 0 < N) :
    handleStreamWorker (some u) none headCL headCT =
      fullStreamResponse N (jsOrStr headCT "video/mp4") ∧
    expressStreamHandler (some u) none headCL headCT =
      fullStreamResponse N (jsOrStr headCT "video/mp4") ∧
    axiosStreamHandler (some u) none (some N) (jsOrStr headCT "video/mp4") =
      fullStreamResponse N (jsOrStr headCT "video/mp4") ∧
    (fullStreamResponse N (jsOrStr headCT "video/mp4")).status = 200 ∧
    (fullStreamResponse N (jsOrStr headCT "video/mp4")).contentLength =
      some (toString N) ∧
    (fullStreamResponse N (jsOrStr headCT "video/mp4")).acceptRanges = true := by
  have hne : u ≠ "" := ne_empty_of_valiw u hu
  have hbv : cdnAllowBV u = true := cdnAllowBV_of_valiw u hu
  have hex : expressStreamUrlOk u = true := expressStreamUrlOk_of_valiw u hu
  have hN0 : N ≠ 0 := by omega
  refine ⟨?_, ?_, ?_, rfl, rfl, rfl⟩
  · simp [handleStreamWorker, jsTruthyS, hne, hbv, hN, hN0]
  · simp [expressStreamHandler, jsTruthyS, hne, hex, hN, hN0]
  · simp [axiosStreamHandler, jsTruthyS, hne, hbv, hN0]

/-- Witness for C8: a stub CDN of length 1000 and no `Range` header yields
200 / `Content-Length: 1000` / `Accept-Ranges: bytes` in all variants. -/
theorem c8_full_request_witness :
    handleStreamWorker (some "https://valiw.hakunaymatata.com/v.mp4") none
        (some "1000") none = fullStreamResponse 1000 (jsOrStr none "video/mp4") ∧
    expressStreamHandler (some "https://valiw.hakunaymatata.com/v.mp4") none
        (some "1000") none = fullStreamResponse 1000 (jsOrStr none "video/mp4") ∧
    axiosStreamHandler (some "https://valiw.hakunaymatata.com/v.mp4") none
        (some 1000) (jsOrStr none "video/mp4") =
      fullStreamResponse 1000 (jsOrStr none "video/mp4") ∧
    (fullStreamResponse 1000 (jsOrStr none "video/mp4")).status = 200 ∧
    (fullStreamResponse 1000 (jsOrStr none "video/mp4")).contentLength =
      some (toString (1000 : Int)) ∧
    (fullStreamResponse 1000 (jsOrStr none "video/mp4")).acceptRanges = true := by
  exact c8_full_request "https://valiw.hakunaymatata.com/v.mp4" (some "1000") none 1000
    (by decide) (by decide) (by decide)

/-- Claim C9 (confirmed): a credential refresh whose bootstrap response
carries no `Set-Cookie` headers leaves both the cached credential and its
acquisition timestamp unchanged (and returns the old cached value); when
headers are present, the stored credential is exactly, for each header, the
name=value part preceding the first `;`, joined with `"; "`, as the
specification words it. -/
theorem c9_cookie_refresh (st : CookieState) (now : Int) (hs : List String) :
    (hs = [] → refreshCookies st now (BootstrapResult.ok hs) = ⟨st, st.cookieCache, 1⟩) ∧
    (hs ≠ [] → (refreshCookies st now (BootstrapResult.ok hs)).state =
        ⟨some (specCredentialString hs), now⟩) := by
  constructor
  · intro h; subst h; rfl
  · intro h
    have hl : hs.length > 0 := List.length_pos.mpr h
    simp only [refreshCookies, if_pos hl]
    rw [cookiesOf_eq_spec]

/-- Witness for C9: a header-less refresh leaves the cache `old=1` at time 5
untouched, and a refresh receiving two `Set-Cookie` headers stores exactly
`sid=1; t=2` with the new timestamp. -/
theorem c9_cookie_refresh_witness :
    refreshCookies ⟨some "old=1", 5⟩ 99 (BootstrapResult.ok []) =
      ⟨⟨some "old=1", 5⟩, some "old=1", 1⟩ ∧
    (refreshCookies ⟨none, 0⟩ 42
        (BootstrapResult.ok ["sid=1; Path=/; HttpOnly", "t=2"])).state =
      ⟨some (specCredentialString ["sid=1; Path=/; HttpOnly", "t=2"]), 42⟩ := by
  exact ⟨(c9_cookie_refresh ⟨some "old=1", 5⟩ 99 []).1 rfl,
         (c9_cookie_refresh ⟨none, 0⟩ 42 ["sid=1; Path=/; HttpOnly", "t=2"]).2 (by decide)⟩

/-- Claim C10 (confirmed): when the metadata probe reports a
`Content-Length` of exactly 0, every stream-handler variant takes the same
branch as a missing length (the JS zero is falsy in `!fileSize`) and
answers 500, so a zero-length resource can never be served. -/
theorem c10_zero_length (range headCT : Option String) :
    (handleStreamWorker (some "https://valiw.hakunaymatata.com/v.mp4") range
        (some "0") headCT).status = 500 ∧
    (expressStreamHandler (some "https://valiw.hakunaymatata.com/v.mp4") range
        (some "0") headCT).status = 500 ∧
    (axiosStreamHandler (some "https://valiw.hakunaymatata.com/v.mp4") range
        (some 0) "video/mp4").status = 500 := by
  exact ⟨rfl, rfl, rfl⟩
